import Mathlib

/-!
Shallow embedding of the XHR instrumentation plugin
(src/plugins/event-plugins/XhrPlugin.ts).

The plugin monkey-patches XMLHttpRequest.prototype.open / .send, keeps a
correlation map from the live request object to an XhrDetails record, attaches
terminal-event listeners on send, builds an X-Ray trace record, and emits
trace events and HTTP summary events according to configuration and session
sampling state.

Modelling conventions:
  - A request handle (XMLHttpRequest object identity) is a Nat id; the
    observable per-request state (attached listeners, request headers) lives
    in an XhrHandle value.
  - The plugin's mutable state (the xhrMap and the stream of events recorded
    through context.record) is an XhrPluginState value threaded explicitly.
  - epochTime() is passed explicitly as a Nat argument at each call site.
  - External collaborators that are not part of the given source are either
    abstract parameters in Env (the URL filter, requestInfoToHostname, the
    generated ids) or definitions marked "Modelled from the spec".
  - Handlers return Option XhrPluginState: none models a thrown TypeError
    (dereferencing xhrDetails.trace when it is undefined).
-/

namespace AwsRumXhr

/-- HttpPluginConfig options relevant to this plugin (http-utils defaultConfig
merged with the user's partial config). -/
structure HttpPluginConfig where
  recordAllRequests : Bool
  addXRayTraceIdHeader : Bool
  logicalServiceName : String
  stackTraceLength : Nat
deriving Repr, DecidableEq

/-- The session object returned by context.getSession(): carries the sampling
decision. -/
structure Session where
  record : Bool
deriving Repr, DecidableEq

/-- External collaborators and ambient configuration of the plugin:
the plugin config, the orchestrator config flag enableXRay, the session
provider result, the URL filter (isUrlAllowed, external utility), the
hostname parser (requestInfoToHostname, external utility) and the ids that
the trace/segment generators would produce. -/
structure Env where
  config : HttpPluginConfig
  enableXRay : Bool
  session : Option Session
  isUrlAllowedF : String → Bool
  hostnameOf : String → String
  traceId : String
  segmentId : String
  subsegmentId : String

/-- this.config.addXRayTraceIdHeader accessor (XhrPlugin.addXRayTraceIdHeader). -/
def Env.addXRayTraceIdHeader (env : Env) : Bool :=
  env.config.addXRayTraceIdHeader

/-- this.context.config.enableXRay accessor (XhrPlugin.isTracingEnabled). -/
def Env.isTracingEnabled (env : Env) : Bool :=
  env.enableXRay

/-- this.context.getSession()?.record || false (XhrPlugin.isSessionRecorded):
an absent session collapses to false exactly like a session with
record = false. -/
def Env.isSessionRecorded (env : Env) : Bool :=
  (env.session.map Session.record).getD false

/-- http.request data of a subsegment: { method, traced }. -/
structure XhrRequestData where
  method : String
  traced : Bool
deriving Repr, DecidableEq

/-- http.response data of a subsegment: { status, content_length? }.
content_length is absent (none) when the Content-Length header did not parse. -/
structure XhrResponseData where
  status : Nat
  content_length : Option Int
deriving Repr, DecidableEq

/-- The http block of a subsegment. -/
structure SubsegmentHttp where
  request : XhrRequestData
  response : Option XhrResponseData
deriving Repr, DecidableEq

/-- One exception entry of a trace cause. -/
structure CauseException where
  type : String
  message : Option String
deriving Repr, DecidableEq

/-- The cause block of a failed subsegment. -/
structure SegmentCause where
  exceptions : List CauseException
deriving Repr, DecidableEq

/-- The single request subsegment of a trace record. -/
structure Subsegment where
  id : String
  name : String
  start_time : Nat
  end_time : Option Nat
  http : SubsegmentHttp
  error : Option Bool
  cause : Option SegmentCause
deriving Repr, DecidableEq

/-- The X-Ray trace record: root span plus its subsegments. -/
structure XRayTraceEvent where
  name : String
  id : String
  trace_id : String
  start_time : Nat
  end_time : Option Nat
  subsegments : List Subsegment
deriving Repr, DecidableEq

/-- A raw platform Error value (name + message). -/
structure JSError where
  name : String
  message : String
deriving Repr, DecidableEq

/-- The raw error argument passed to recordHttpEventWithError: either an Error
object or a plain string. -/
inductive ErrorValue where
  | errObj (e : JSError)
  | strVal (s : String)
deriving Repr, DecidableEq

/-- The structured error description attached to an HTTP summary event. -/
structure JSErrorEvent where
  type : String
  message : Option String
deriving Repr, DecidableEq

/-- The request part of an HTTP summary event. -/
structure HttpRequestData where
  method : String
deriving Repr, DecidableEq

/-- The response part of an HTTP summary event. -/
structure HttpEventResponse where
  status : Nat
  statusText : String
deriving Repr, DecidableEq

/-- An HTTP summary event as passed to context.record. -/
structure HttpEvent where
  version : String
  request : HttpRequestData
  response : Option HttpEventResponse
  error : Option JSErrorEvent
deriving Repr, DecidableEq

/-- One event forwarded to the emission sink context.record, tagged with its
event type. -/
inductive RecordedEvent where
  | httpEvt (e : HttpEvent)
  | xrayEvt (t : XRayTraceEvent)
deriving Repr, DecidableEq

/-- The per-request tracking record (XhrDetails): created by the open wrapper,
trace filled in by the send wrapper. -/
structure XhrDetails where
  method : String
  url : String
  async : Bool
  trace : Option XRayTraceEvent
deriving Repr, DecidableEq

/-- The plugin's mutable state: the correlation map (this.xhrMap) and the
ordered list of events recorded through this.context.record. -/
structure XhrPluginState where
  xhrMap : List (Nat × XhrDetails)
  recorded : List RecordedEvent
deriving Repr, DecidableEq

/-- The observable state of one XMLHttpRequest object: its identity, the event
listeners attached to it, and the request headers set on it. -/
structure XhrHandle where
  hid : Nat
  listeners : List String
  requestHeaders : List (String × String)
deriving Repr, DecidableEq

/-- Map.get on the correlation map. -/
def mapGet : List (Nat × XhrDetails) → Nat → Option XhrDetails
  | [], _ => none
  | (k, v) :: rest, h => if k = h then some v else mapGet rest h

/-- Map.set on the correlation map: replaces the entry for an existing key,
otherwise inserts. -/
def mapSet : List (Nat × XhrDetails) → Nat → XhrDetails → List (Nat × XhrDetails)
  | [], k, v => [(k, v)]
  | (k', v') :: rest, k, v =>
    if k' = k then (k, v) :: rest else (k', v') :: mapSet rest k v

/-- Modelled from the spec: the trace-propagation correlation header name
X_AMZN_TRACE_ID exported by http-utils (not under src). -/
def X_AMZN_TRACE_ID : String := "X-Amzn-Trace-Id"

/-- Modelled from the spec: getAmznTraceIdHeaderValue from http-utils (not
under src) builds the header value carrying the trace id and the subsegment
id. -/
def getAmznTraceIdHeaderValue (traceId subsegId : String) : String :=
  "Root=" ++ traceId ++ ";Parent=" ++ subsegId ++ ";Sampled=1"

/-- Modelled from the spec: createXRayTraceEvent from http-utils (not under
src) builds the root span with the captured start time and an empty
subsegment list. -/
def createXRayTraceEvent (env : Env) (name : String) (startTime : Nat) :
    XRayTraceEvent :=
  { name := name, id := env.segmentId, trace_id := env.traceId,
    start_time := startTime, end_time := none, subsegments := [] }

/-- Modelled from the spec: createXRaySubsegment from http-utils (not under
src) builds a subsegment with the captured start time, destination name and
http block. -/
def createXRaySubsegment (env : Env) (name : String) (startTime : Nat)
    (http : SubsegmentHttp) : Subsegment :=
  { id := env.subsegmentId, name := name, start_time := startTime,
    end_time := none, http := http, error := none, cause := none }

/-- Modelled from the spec: the error-normalization utility
errorEventToJsErrorEvent (not under src) converts a raw error value plus a
stack-length limit into the structured error description of HTTP summary
events: an Error object contributes its name as type and its message; a plain
string contributes only the fixed category name as type, with no message. -/
def errorEventToJsErrorEvent (error : ErrorValue) (stackTraceLength : Nat) :
    JSErrorEvent :=
  match error, stackTraceLength with
  | ErrorValue.errObj e, _ => { type := e.name, message := some e.message }
  | ErrorValue.strVal s, _ => { type := s, message := none }

/-- Modelled from the spec: XhrError (src/errors/XhrError.ts, not under src)
is an Error whose message folds in the reported status/status-text. -/
def XhrError (message : String) : JSError :=
  { name := "XhrError", message := message }

/-- True whitespace set of JS parseInt input trimming. -/
def isJsWhitespace (c : Char) : Bool :=
  c = ' ' || c = '\t' || c = '\n' || c = '\r' || c = '\x0b' || c = '\x0c'

/-- The maximal leading run of decimal digits. -/
def leadingDigits : List Char → List Char
  | [] => []
  | c :: cs => if c.isDigit then c :: leadingDigits cs else []

/-- Value of a digit list read in base 10. -/
def digitsVal (ds : List Char) : Nat :=
  ds.foldl (fun a c => a * 10 + (c.toNat - 48)) 0

/-- JS parseInt(str, 10): trim leading whitespace, optional sign, then the
leading digit run; none models NaN (no digits found). -/
def parseIntTen (str : String) : Option Int :=
  match str.toList.dropWhile isJsWhitespace with
  | [] => none
  | c :: cs =>
    if c = '-' then
      match leadingDigits cs with
      | [] => none
      | ds => some (-(digitsVal ds : Int))
    else if c = '+' then
      match leadingDigits cs with
      | [] => none
      | ds => some ((digitsVal ds : Int))
    else
      match leadingDigits (c :: cs) with
      | [] => none
      | ds => some ((digitsVal ds : Int))

/-- parseInt(xhr.getResponseHeader('Content-Length'), 10): a missing header
(null) coerces to the string "null", which has no digits, hence NaN. -/
def getContentLength (header : Option String) : Option Int :=
  match header with
  | none => none
  | some s => parseIntTen s

/-- XhrPlugin.statusOk: status >= 200 && status < 300. -/
def statusOk (status : Nat) : Bool :=
  decide (200 ≤ status) && decide (status < 300)

/-- XhrPlugin.recordTraceEvent: forwards the trace to context.record only when
tracing is enabled and the session is recorded; otherwise the trace is
discarded. -/
def recordTraceEvent (env : Env) (st : XhrPluginState)
    (trace : XRayTraceEvent) : XhrPluginState :=
  if env.isTracingEnabled && env.isSessionRecorded then
    { st with recorded := st.recorded ++ [RecordedEvent.xrayEvt trace] }
  else
    st

/-- XhrPlugin.recordHttpEventWithResponse: emits the HTTP summary event with a
response block when recordAllRequests is set or the status is not 2xx. -/
def recordHttpEventWithResponse (env : Env) (st : XhrPluginState)
    (details : XhrDetails) (status : Nat) (statusText : String) :
    XhrPluginState :=
  if env.config.recordAllRequests || !statusOk status then
    { st with recorded := st.recorded ++ [RecordedEvent.httpEvt
        { version := "1.0.0", request := { method := details.method },
          response := some { status := status, statusText := statusText },
          error := none }] }
  else
    st

/-- XhrPlugin.recordHttpEventWithError: unconditionally emits the HTTP summary
event with an error block and no response block. -/
def recordHttpEventWithError (env : Env) (st : XhrPluginState)
    (details : XhrDetails) (error : ErrorValue) : XhrPluginState :=
  { st with recorded := st.recorded ++ [RecordedEvent.httpEvt
      { version := "1.0.0", request := { method := details.method },
        response := none,
        error := some (errorEventToJsErrorEvent error
          env.config.stackTraceLength) }] }

/-- XhrPlugin.initializeTrace: builds the root span and pushes the single
request subsegment (destination hostname, start time, method, traced flag). -/
def initializeTrace (env : Env) (details : XhrDetails) (startTime : Nat) :
    XhrDetails :=
  let trace0 := createXRayTraceEvent env env.config.logicalServiceName startTime
  let sub := createXRaySubsegment env (env.hostnameOf details.url) startTime
    { request := { method := details.method, traced := true }, response := none }
  { details with
    trace := some { trace0 with subsegments := trace0.subsegments ++ [sub] } }

/-- XhrPlugin.handleXhrLoadEvent: on a load callback, finalize the trace with
the end time and response status, attach content_length only when the
Content-Length header parses, then record the trace event and the HTTP
summary event. A missing tracking record is a silent no-op; a record without
a trace models the TypeError path (none). -/
def handleXhrLoadEvent (env : Env) (st : XhrPluginState) (hid : Nat)
    (status : Nat) (statusText : String) (contentLengthHeader : Option String)
    (endTime : Nat) : Option XhrPluginState :=
  match mapGet st.xhrMap hid with
  | none => some st
  | some details =>
    match details.trace with
    | none => none
    | some trace =>
      match trace.subsegments with
      | [] => none
      | sub :: rest =>
        let resp : XhrResponseData :=
          { status := status,
            content_length := getContentLength contentLengthHeader }
        let sub' := { sub with
          end_time := some endTime,
          http := { sub.http with response := some resp } }
        let trace' := { trace with
          end_time := some endTime, subsegments := sub' :: rest }
        let details' := { details with trace := some trace' }
        let st1 := { st with xhrMap := mapSet st.xhrMap hid details' }
        let st2 := recordTraceEvent env st1 trace'
        some (recordHttpEventWithResponse env st2 details' status statusText)

/-- The error message of the error path: xhr.statusText is truthy (non-empty)
iff the status/status-text pair is folded in, else just the status. -/
def xhrErrorMessage (status : Nat) (statusText : String) : String :=
  if statusText = "" then toString status
  else toString status ++ ": " ++ statusText

/-- XhrPlugin.handleXhrErrorEvent: on an error callback, finalize the trace
with an error cause whose message folds status/status-text, then record the
trace event and the HTTP summary event carrying an XhrError. -/
def handleXhrErrorEvent (env : Env) (st : XhrPluginState) (hid : Nat)
    (status : Nat) (statusText : String) (endTime : Nat) :
    Option XhrPluginState :=
  let errorName := "XMLHttpRequest error"
  let errorMessage := xhrErrorMessage status statusText
  match mapGet st.xhrMap hid with
  | none => some st
  | some details =>
    match details.trace with
    | none => none
    | some trace =>
      match trace.subsegments with
      | [] => none
      | sub :: rest =>
        let sub' := { sub with
          end_time := some endTime, error := some true,
          cause := some { exceptions :=
            [{ type := errorName, message := some errorMessage }] } }
        let trace' := { trace with
          end_time := some endTime, subsegments := sub' :: rest }
        let details' := { details with trace := some trace' }
        let st1 := { st with xhrMap := mapSet st.xhrMap hid details' }
        let st2 := recordTraceEvent env st1 trace'
        some (recordHttpEventWithError env st2 details'
          (ErrorValue.errObj (XhrError errorMessage)))

/-- XhrPlugin.handleXhrAbortEvent: on an abort callback, finalize the trace
with a cause carrying only the fixed category name, then record the trace
event and the HTTP summary event. -/
def handleXhrAbortEvent (env : Env) (st : XhrPluginState) (hid : Nat)
    (endTime : Nat) : Option XhrPluginState :=
  let errorName := "XMLHttpRequest abort"
  match mapGet st.xhrMap hid with
  | none => some st
  | some details =>
    match details.trace with
    | none => none
    | some trace =>
      match trace.subsegments with
      | [] => none
      | sub :: rest =>
        let sub' := { sub with
          end_time := some endTime, error := some true,
          cause := some { exceptions := [{ type := errorName, message := none }] } }
        let trace' := { trace with
          end_time := some endTime, subsegments := sub' :: rest }
        let details' := { details with trace := some trace' }
        let st1 := { st with xhrMap := mapSet st.xhrMap hid details' }
        let st2 := recordTraceEvent env st1 trace'
        some (recordHttpEventWithError env st2 details'
          (ErrorValue.strVal errorName))

/-- XhrPlugin.handleXhrTimeoutEvent: on a timeout callback, finalize the trace
with a cause carrying only the fixed category name, then record the trace
event and the HTTP summary event. -/
def handleXhrTimeoutEvent (env : Env) (st : XhrPluginState) (hid : Nat)
    (endTime : Nat) : Option XhrPluginState :=
  let errorName := "XMLHttpRequest timeout"
  match mapGet st.xhrMap hid with
  | none => some st
  | some details =>
    match details.trace with
    | none => none
    | some trace =>
      match trace.subsegments with
      | [] => none
      | sub :: rest =>
        let sub' := { sub with
          end_time := some endTime, error := some true,
          cause := some { exceptions := [{ type := errorName, message := none }] } }
        let trace' := { trace with
          end_time := some endTime, subsegments := sub' :: rest }
        let details' := { details with trace := some trace' }
        let st1 := { st with xhrMap := mapSet st.xhrMap hid details' }
        let st2 := recordTraceEvent env st1 trace'
        some (recordHttpEventWithError env st2 details'
          (ErrorValue.strVal errorName))

/-- XhrPlugin.sendWrapper (the wrapped send function): when the request is
tracked, attach the four terminal-event listeners, initialize the trace at
the current time, and inject the correlation header exactly when tracing is
enabled, the header flag is set and the session is recorded. An untracked
request falls through to the original send untouched. -/
def sendWrapper (env : Env) (st : XhrPluginState) (xhr : XhrHandle)
    (sendTime : Nat) : XhrPluginState × XhrHandle :=
  match mapGet st.xhrMap xhr.hid with
  | none => (st, xhr)
  | some details =>
    let xhr1 := { xhr with
      listeners := xhr.listeners ++ ["load", "error", "abort", "timeout"] }
    let details' := initializeTrace env details sendTime
    let st1 := { st with xhrMap := mapSet st.xhrMap xhr.hid details' }
    let xhr2 :=
      if env.isTracingEnabled && env.addXRayTraceIdHeader
          && env.isSessionRecorded then
        match details'.trace with
        | some trace =>
          let subsegId :=
            match trace.subsegments with
            | sub :: _ => sub.id
            | [] => ""
          { xhr1 with requestHeaders := xhr1.requestHeaders ++
              [(X_AMZN_TRACE_ID,
                getAmznTraceIdHeaderValue trace.trace_id subsegId)] }
        | none => xhr1
      else xhr1
    (st1, xhr2)

/-- XhrPlugin.openWrapper (the wrapped open function): when the URL passes the
filter, store a fresh tracking record for the handle (replacing any existing
one, with no trace); otherwise leave the state untouched. -/
def openWrapper (env : Env) (st : XhrPluginState) (hid : Nat)
    (method url : String) (async : Bool) : XhrPluginState :=
  if env.isUrlAllowedF url then
    let fresh : XhrDetails :=
      { method := method, url := url, async := async, trace := none }
    { st with xhrMap := mapSet st.xhrMap hid fresh }
  else
    st

/-- The HTTP summary events among a recorded-event list, in order. -/
def httpEventsOf (l : List RecordedEvent) : List HttpEvent :=
  l.filterMap fun ev =>
    match ev with
    | RecordedEvent.httpEvt e => some e
    | RecordedEvent.xrayEvt _ => none

/-- The trace events among a recorded-event list, in order. -/
def xrayEventsOf (l : List RecordedEvent) : List XRayTraceEvent :=
  l.filterMap fun ev =>
    match ev with
    | RecordedEvent.httpEvt _ => none
    | RecordedEvent.xrayEvt t => some t

/-- Whether a header of the given name has been set on the request. -/
def hasHeader (xhr : XhrHandle) (name : String) : Bool :=
  xhr.requestHeaders.any fun p => p.1 == name

/-- The content_length stored in the subsegment response of the tracked
request, when every layer is present. -/
def storedContentLength (st : Option XhrPluginState) (hid : Nat) :
    Option (Option Int) :=
  match st with
  | none => none
  | some st' =>
    match mapGet st'.xhrMap hid with
    | none => none
    | some d =>
      match d.trace with
      | none => none
      | some tr =>
        match tr.subsegments with
        | [] => none
        | sub :: _ =>
          match sub.http.response with
          | none => none
          | some r => some r.content_length

/-- The cause stored in the subsegment of the tracked request, when every
layer is present. -/
def storedCause (st : Option XhrPluginState) (hid : Nat) :
    Option (Option SegmentCause) :=
  match st with
  | none => none
  | some st' =>
    match mapGet st'.xhrMap hid with
    | none => none
    | some d =>
      match d.trace with
      | none => none
      | some tr =>
        match tr.subsegments with
        | [] => none
        | sub :: _ => some sub.cause

/-- The HTTP summary event emitted on the load path. -/
def summaryWithResponse (method : String) (status : Nat)
    (statusText : String) : HttpEvent :=
  { version := "1.0.0", request := { method := method },
    response := some { status := status, statusText := statusText },
    error := none }

/-- The HTTP summary event emitted on the error/abort/timeout paths: an error
block and no response block. -/
def summaryWithError (method : String) (err : JSErrorEvent) : HttpEvent :=
  { version := "1.0.0", request := { method := method },
    response := none, error := some err }

/-- A finalized trace for the tracked request: end_time set on the root and on
every subsegment, each at or after the corresponding start_time. -/
def traceFinalized (st : XhrPluginState) (hid : Nat) : Prop :=
  ∃ d tr, mapGet st.xhrMap hid = some d ∧ d.trace = some tr ∧
    (∃ e1, tr.end_time = some e1 ∧ tr.start_time ≤ e1) ∧
    ∀ sub ∈ tr.subsegments, ∃ e2, sub.end_time = some e2 ∧ sub.start_time ≤ e2

/-- A concrete plugin configuration used for concrete evaluations. -/
def cfg0 : HttpPluginConfig :=
  { recordAllRequests := false, addXRayTraceIdHeader := true,
    logicalServiceName := "rum.aws.amazon.com", stackTraceLength := 200 }

/-- A concrete environment: tracing on, session recorded, filter accepting a
single URL. -/
def env0 : Env :=
  { config := cfg0, enableXRay := true, session := some { record := true },
    isUrlAllowedF := fun url => url == "https://aws.amazon.com/",
    hostnameOf := fun _ => "aws.amazon.com",
    traceId := "1-0-0", segmentId := "seg-1", subsegmentId := "sub-1" }

/-- A concrete tracking record as created by the open wrapper. -/
def d0 : XhrDetails :=
  { method := "GET", url := "https://aws.amazon.com/", async := true,
    trace := none }

/-- The empty plugin state. -/
def stEmpty : XhrPluginState := { xhrMap := [], recorded := [] }

/-- A state in which handle 0 is tracked but not yet sent. -/
def st0 : XhrPluginState := { xhrMap := [(0, d0)], recorded := [] }

/-- A fresh request handle with id 0. -/
def xhr0 : XhrHandle := { hid := 0, listeners := [], requestHeaders := [] }

/-- A fresh request handle with id 5 (never tracked in st0). -/
def xhr5 : XhrHandle := { hid := 5, listeners := [], requestHeaders := [] }

/-- The plugin state after send was called on the tracked handle 0 at time 3. -/
def stSent : XhrPluginState := (sendWrapper env0 st0 xhr0 3).1

/-- The subsegment built by the send at time 3 in stSent. -/
def sub1 : Subsegment :=
  { id := "sub-1", name := "aws.amazon.com", start_time := 3, end_time := none,
    http := { request := { method := "GET", traced := true }, response := none },
    error := none, cause := none }

/-- The trace record built by the send at time 3 in stSent. -/
def tr1 : XRayTraceEvent :=
  { name := "rum.aws.amazon.com", id := "seg-1", trace_id := "1-0-0",
    start_time := 3, end_time := none, subsegments := [sub1] }

/-- The tracking record of handle 0 in stSent. -/
def d1 : XhrDetails :=
  { method := "GET", url := "https://aws.amazon.com/", async := true,
    trace := some tr1 }

/-- The state after two open calls on handle 0: the first URL passes the
filter of env0, the second does not. -/
def stTwoOpens : XhrPluginState :=
  openWrapper env0
    (openWrapper env0 stEmpty 0 "GET" "https://aws.amazon.com/" true)
    0 "POST" "https://blocked.example/" false

/-- The subsegment that initializeTrace pushes for a tracking record at the
given start time (spelled out). -/
def sentSubsegment (env : Env) (d : XhrDetails) (t : Nat) : Subsegment :=
  { id := env.subsegmentId, name := env.hostnameOf d.url, start_time := t,
    end_time := none,
    http := { request := { method := d.method, traced := true },
              response := none },
    error := none, cause := none }

/-- The trace record that initializeTrace stores for a tracking record at the
given start time (spelled out): root span plus exactly one subsegment. -/
def sentTrace (env : Env) (d : XhrDetails) (t : Nat) : XRayTraceEvent :=
  { name := env.config.logicalServiceName, id := env.segmentId,
    trace_id := env.traceId, start_time := t, end_time := none,
    subsegments := [sentSubsegment env d t] }

theorem httpEventsOf_append (l1 l2 : List RecordedEvent) :
    httpEventsOf (l1 ++ l2) = httpEventsOf l1 ++ httpEventsOf l2 := by
  simp [httpEventsOf]

theorem xrayEventsOf_append (l1 l2 : List RecordedEvent) :
    xrayEventsOf (l1 ++ l2) = xrayEventsOf l1 ++ xrayEventsOf l2 := by
  simp [xrayEventsOf]

theorem httpEventsOf_httpSingleton (e : HttpEvent) :
    httpEventsOf [RecordedEvent.httpEvt e] = [e] := rfl

theorem httpEventsOf_xraySingleton (t : XRayTraceEvent) :
    httpEventsOf [RecordedEvent.xrayEvt t] = [] := rfl

theorem mapGet_mapSet_self (m : List (Nat × XhrDetails)) (k : Nat)
    (v : XhrDetails) : mapGet (mapSet m k v) k = some v := by
  induction m with
  | nil => simp [mapGet, mapSet]
  | cons p rest ih =>
    obtain ⟨k', v'⟩ := p
    by_cases h : k' = k
    · simp [mapSet, h, mapGet]
    · simp [mapSet, h, mapGet, ih]

theorem recordTraceEvent_xhrMap (env : Env) (st : XhrPluginState)
    (tr : XRayTraceEvent) : (recordTraceEvent env st tr).xhrMap = st.xhrMap := by
  unfold recordTraceEvent
  split <;> rfl

theorem httpEventsOf_recordTraceEvent (env : Env) (st : XhrPluginState)
    (tr : XRayTraceEvent) :
    httpEventsOf (recordTraceEvent env st tr).recorded =
      httpEventsOf st.recorded := by
  unfold recordTraceEvent
  split
  · simp [httpEventsOf_append, httpEventsOf]
  · rfl

theorem recordHttpEventWithResponse_xhrMap (env : Env) (st : XhrPluginState)
    (details : XhrDetails) (status : Nat) (statusText : String) :
    (recordHttpEventWithResponse env st details status statusText).xhrMap =
      st.xhrMap := by
  unfold recordHttpEventWithResponse
  split <;> rfl

theorem recordHttpEventWithError_xhrMap (env : Env) (st : XhrPluginState)
    (details : XhrDetails) (error : ErrorValue) :
    (recordHttpEventWithError env st details error).xhrMap = st.xhrMap := rfl

theorem summaryCond_iff (b : Bool) (s : Nat) :
    ((b || !statusOk s) = true) ↔ (b = true ∨ ¬(200 ≤ s ∧ s < 300)) := by
  cases b
  · simp [statusOk]
    omega
  · simp [statusOk]

/-- C2: a finalized trace record is forwarded to the emission sink iff
distributed tracing is enabled and the session is recorded; otherwise the
state is left exactly unchanged (the record is discarded), and an absent
session behaves identically to a session with record = false. -/
theorem traceEvent_emission_policy (env : Env) (st : XhrPluginState)
    (tr : XRayTraceEvent) :
    ((recordTraceEvent env st tr).recorded =
        st.recorded ++ [RecordedEvent.xrayEvt tr]
      ↔ (Env.isTracingEnabled env = true ∧ Env.isSessionRecorded env = true))
    ∧ ((recordTraceEvent env st tr) = st
      ↔ ¬(Env.isTracingEnabled env = true ∧ Env.isSessionRecorded env = true))
    ∧ Env.isSessionRecorded { env with session := none } = false
    ∧ recordTraceEvent { env with session := none } st tr
        = recordTraceEvent { env with session := some { record := false } } st tr := by
  refine ⟨?_, ?_, ?_, ?_⟩
  · unfold recordTraceEvent
    by_cases h1 : Env.isTracingEnabled env = true <;>
      by_cases h2 : Env.isSessionRecorded env = true <;>
        simp [h1, h2]
  · cases st with
    | mk m r =>
      unfold recordTraceEvent
      by_cases h1 : Env.isTracingEnabled env = true <;>
        by_cases h2 : Env.isSessionRecorded env = true <;>
          simp [h1, h2, XhrPluginState.mk.injEq]
  · simp [Env.isSessionRecorded]
  · simp [recordTraceEvent, Env.isSessionRecorded, Env.isTracingEnabled]

/-- C5 counterexample: with a filter that accepts the first URL and rejects
the second, two open calls on handle 0 leave the store holding the FIRST
record, not the second — the claim as stated fails. -/
theorem second_open_filtered_counterexample :
    mapGet stTwoOpens.xhrMap 0
        = some { method := "GET", url := "https://aws.amazon.com/",
                 async := true, trace := none }
    ∧ mapGet stTwoOpens.xhrMap 0
        ≠ some { method := "POST", url := "https://blocked.example/",
                 async := false, trace := none } := by
  decide

/-- C5 amended: when the SECOND open call's URL passes the request filter,
the store holds only the record of the second call (its method, URL and async
mode win, and any trace is reset), whatever the first call did. -/
theorem second_open_wins_when_allowed (env : Env) (st : XhrPluginState)
    (hid : Nat) (m1 u1 : String) (a1 : Bool) (m2 u2 : String) (a2 : Bool)
    (h2 : env.isUrlAllowedF u2 = true) :
    mapGet (openWrapper env (openWrapper env st hid m1 u1 a1) hid m2 u2 a2).xhrMap
        hid
      = some { method := m2, url := u2, async := a2, trace := none } := by
  unfold openWrapper
  simp [h2, mapGet_mapSet_self]

theorem second_open_wins_when_allowed_witness :
    mapGet (openWrapper env0
        (openWrapper env0 stEmpty 0 "GET" "https://blocked.example/" true)
        0 "POST" "https://aws.amazon.com/" false).xhrMap 0
      = some { method := "POST", url := "https://aws.amazon.com/",
               async := false, trace := none } :=
  second_open_wins_when_allowed env0 stEmpty 0 "GET" "https://blocked.example/"
    true "POST" "https://aws.amazon.com/" false (by decide)

/-- C8 counterexample: handle 0 is opened on a filter-accepted URL and then
re-opened on a filter-rejected URL, so the request's URL was rejected at the
last open; yet the subsequent send attaches the four terminal-event
listeners, builds a trace, and injects the correlation header, because the
stale record from the first open survives the rejected re-open — the claim
as stated is false. -/
theorem rejected_reopen_still_instrumented_counterexample :
    (sendWrapper env0 stTwoOpens xhr0 3).2.listeners =
        ["load", "error", "abort", "timeout"]
    ∧ hasHeader (sendWrapper env0 stTwoOpens xhr0 3).2 X_AMZN_TRACE_ID = true
    ∧ mapGet (sendWrapper env0 stTwoOpens xhr0 3).1.xhrMap 0 =
        some { d0 with trace := some (sentTrace env0 d0 3) } := by
  decide

/-- C8 amended: a URL rejected by the filter at open time never creates or
modifies a tracking record (the open leaves the state exactly unchanged);
and provided the handle holds no surviving record from an earlier allowed
open, the subsequent send on that handle attaches no listeners, builds no
trace and injects no header: state and handle pass through untouched. The
freshness proviso is forced by the counterexample above (a stale record
keeps the request instrumented). -/
theorem filtered_out_requests_untouched (env : Env) (st : XhrPluginState)
    (xhr : XhrHandle) (method url : String) (async : Bool) (t : Nat)
    (hurl : env.isUrlAllowedF url = false)
    (hfresh : mapGet st.xhrMap xhr.hid = none) :
    openWrapper env st xhr.hid method url async = st
    ∧ sendWrapper env (openWrapper env st xhr.hid method url async) xhr t
        = (st, xhr) := by
  have h1 : openWrapper env st xhr.hid method url async = st := by
    unfold openWrapper
    simp [hurl]
  refine ⟨h1, ?_⟩
  rw [h1]
  unfold sendWrapper
  simp [hfresh]

theorem filtered_out_requests_untouched_witness :
    openWrapper env0 st0 xhr5.hid "GET" "https://blocked.example/" true = st0
    ∧ sendWrapper env0
        (openWrapper env0 st0 xhr5.hid "GET" "https://blocked.example/" true)
        xhr5 3 = (st0, xhr5) :=
  filtered_out_requests_untouched env0 st0 xhr5 "GET"
    "https://blocked.example/" true 3 (by decide) (by decide)

/-- C9: every terminal callback arriving for a handle with no tracking record
is a silent no-op: the handler returns the state unchanged (and throws
nothing), so no trace event and no HTTP summary event is recorded. -/
theorem missing_record_callbacks_noop (env : Env) (st : XhrPluginState)
    (hid : Nat) (status : Nat) (statusText : String) (cl : Option String)
    (t : Nat) (h : mapGet st.xhrMap hid = none) :
    handleXhrLoadEvent env st hid status statusText cl t = some st
    ∧ handleXhrErrorEvent env st hid status statusText t = some st
    ∧ handleXhrAbortEvent env st hid t = some st
    ∧ handleXhrTimeoutEvent env st hid t = some st := by
  unfold handleXhrLoadEvent handleXhrErrorEvent handleXhrAbortEvent
    handleXhrTimeoutEvent
  simp [h]

theorem missing_record_callbacks_noop_witness :
    handleXhrLoadEvent env0 st0 5 200 "OK" none 7 = some st0
    ∧ handleXhrErrorEvent env0 st0 5 200 "OK" 7 = some st0
    ∧ handleXhrAbortEvent env0 st0 5 7 = some st0
    ∧ handleXhrTimeoutEvent env0 st0 5 7 = some st0 :=
  missing_record_callbacks_noop env0 st0 5 200 "OK" none 7 (by decide)

theorem sendWrapper_tracked (env : Env) (st : XhrPluginState) (xhr : XhrHandle)
    (t : Nat) (d : XhrDetails) (hd : mapGet st.xhrMap xhr.hid = some d) :
    (sendWrapper env st xhr t).1 =
      { st with xhrMap := mapSet st.xhrMap xhr.hid (initializeTrace env d t) }
    ∧ (sendWrapper env st xhr t).2.listeners =
        xhr.listeners ++ ["load", "error", "abort", "timeout"] := by
  unfold sendWrapper
  rw [hd]
  constructor
  · rfl
  · simp only []
    split
    · simp [initializeTrace]
    · rfl

/-- C10: for a tracked request, send always attaches the four terminal-event
listeners and always stores a full trace record (root span plus one
subsegment with start time, hostname and traced flag) while recording no
event; the configuration and sampling flags never gate trace construction
(the environment here is arbitrary, so this holds in particular with tracing
disabled, the session not recorded and recordAllRequests false). -/
theorem send_constructs_trace_always (env : Env) (st : XhrPluginState)
    (xhr : XhrHandle) (t : Nat) (d : XhrDetails)
    (hd : mapGet st.xhrMap xhr.hid = some d) :
    (sendWrapper env st xhr t).2.listeners =
        xhr.listeners ++ ["load", "error", "abort", "timeout"]
    ∧ mapGet (sendWrapper env st xhr t).1.xhrMap xhr.hid =
        some { d with trace := some (sentTrace env d t) }
    ∧ (sendWrapper env st xhr t).1.recorded = st.recorded := by
  obtain ⟨h1, h2⟩ := sendWrapper_tracked env st xhr t d hd
  refine ⟨h2, ?_, ?_⟩
  · rw [h1]
    simp only [mapGet_mapSet_self]
    simp [initializeTrace, createXRayTraceEvent, createXRaySubsegment,
      sentTrace, sentSubsegment]
  · rw [h1]

theorem send_constructs_trace_always_witness :
    (sendWrapper env0 st0 xhr0 3).2.listeners =
        xhr0.listeners ++ ["load", "error", "abort", "timeout"]
    ∧ mapGet (sendWrapper env0 st0 xhr0 3).1.xhrMap xhr0.hid =
        some { d0 with trace := some (sentTrace env0 d0 3) }
    ∧ (sendWrapper env0 st0 xhr0 3).1.recorded = st0.recorded :=
  send_constructs_trace_always env0 st0 xhr0 3 d0 (by decide)

/-- C3: for a tracked request with no correlation header yet, send sets the
trace-propagation header iff tracing is enabled, header injection is enabled
in the configuration and the session is recorded; and the handle produced by
send does not depend on recordAllRequests, so the decision is independent of
whether an HTTP summary event will later be emitted. -/
theorem correlation_header_iff (env : Env) (st : XhrPluginState)
    (xhr : XhrHandle) (t : Nat) (d : XhrDetails)
    (hd : mapGet st.xhrMap xhr.hid = some d)
    (hh : hasHeader xhr X_AMZN_TRACE_ID = false) :
    (hasHeader (sendWrapper env st xhr t).2 X_AMZN_TRACE_ID = true
      ↔ (Env.isTracingEnabled env = true ∧ Env.addXRayTraceIdHeader env = true
          ∧ Env.isSessionRecorded env = true))
    ∧ ∀ b : Bool,
        (sendWrapper { env with
            config := { env.config with recordAllRequests := b } } st xhr t).2
          = (sendWrapper env st xhr t).2 := by
  constructor
  · unfold sendWrapper
    rw [hd]
    simp only []
    by_cases hc : (env.isTracingEnabled && env.addXRayTraceIdHeader
        && env.isSessionRecorded) = true
    · rw [if_pos hc]
      simp only [Bool.and_eq_true] at hc
      simp [initializeTrace, hasHeader, List.any_append, hasHeader] at hh ⊢
      exact ⟨hc.1.1, hc.1.2, hc.2⟩
    · rw [if_neg hc]
      simp only [Bool.and_eq_true] at hc
      simp [hasHeader] at hh ⊢
      constructor
      · rintro ⟨x, hx⟩
        exact absurd rfl (hh _ x hx)
      · rintro ⟨h1, h2, h3⟩
        exact absurd ⟨⟨h1, h2⟩, h3⟩ hc
  · intro b
    unfold sendWrapper
    rw [hd]
    simp only []
    rfl

theorem correlation_header_iff_witness :
    (hasHeader (sendWrapper env0 st0 xhr0 3).2 X_AMZN_TRACE_ID = true
      ↔ (Env.isTracingEnabled env0 = true ∧ Env.addXRayTraceIdHeader env0 = true
          ∧ Env.isSessionRecorded env0 = true))
    ∧ ∀ b : Bool,
        (sendWrapper { env0 with
            config := { env0.config with recordAllRequests := b } } st0 xhr0 3).2
          = (sendWrapper env0 st0 xhr0 3).2 :=
  correlation_header_iff env0 st0 xhr0 3 d0 (by decide) (by decide)

/-- C1: on a load callback for a tracked request, an HTTP summary event is
emitted iff recordAllRequests is true or the status lies outside [200,300):
a 2xx completion is summarized exactly when recordAllRequests is set, any
other status is always summarized. -/
theorem httpSummary_emission_on_load (env : Env) (st : XhrPluginState)
    (hid : Nat) (status : Nat) (statusText : String) (cl : Option String)
    (t : Nat) (d : XhrDetails) (tr : XRayTraceEvent) (sub : Subsegment)
    (rest : List Subsegment)
    (hd : mapGet st.xhrMap hid = some d) (htr : d.trace = some tr)
    (hsub : tr.subsegments = sub :: rest) :
    ∃ st', handleXhrLoadEvent env st hid status statusText cl t = some st'
      ∧ httpEventsOf st'.recorded = httpEventsOf st.recorded ++
          (if env.config.recordAllRequests = true ∨ ¬(200 ≤ status ∧ status < 300)
           then [summaryWithResponse d.method status statusText]
           else []) := by
  unfold handleXhrLoadEvent
  simp only [hd, htr, hsub]
  refine ⟨_, rfl, ?_⟩
  unfold recordHttpEventWithResponse
  by_cases hc : (env.config.recordAllRequests || !statusOk status) = true
  · rw [if_pos hc, if_pos ((summaryCond_iff _ _).mp hc)]
    simp [httpEventsOf_append, httpEventsOf_httpSingleton,
      httpEventsOf_recordTraceEvent, summaryWithResponse]
  · rw [if_neg hc, if_neg (fun hp => hc ((summaryCond_iff _ _).mpr hp))]
    simp [httpEventsOf_recordTraceEvent]

theorem httpSummary_emission_on_load_witness :
    ∃ st', handleXhrLoadEvent env0 stSent 0 500 "ISE" none 7 = some st'
      ∧ httpEventsOf st'.recorded = httpEventsOf stSent.recorded ++
          (if env0.config.recordAllRequests = true ∨ ¬(200 ≤ 500 ∧ 500 < 300)
           then [summaryWithResponse d1.method 500 "ISE"]
           else []) :=
  httpSummary_emission_on_load env0 stSent 0 500 "ISE" none 7 d1 tr1 sub1 []
    (by decide) (by decide) (by decide)

/-- C4 counterexample: a Content-Length header of "-5" parses under base-10
parseInt to the negative number -5, which the load handler attaches as
content_length — so content_length is NOT attached only for non-negative
declared lengths. -/
theorem content_length_negative_counterexample :
    storedContentLength (handleXhrLoadEvent env0 stSent 0 200 "OK" (some "-5") 7) 0
      = some (some (-5))
    ∧ ((-5 : Int) < 0) := by
  decide

/-- C4 amended: on a load callback for a tracked request, the attached
content_length equals exactly the base-10 parseInt of the Content-Length
header whenever that parse yields a number (a parseable negative value is
attached as-is), and it is omitted (none) — never encoded as 0 or NaN — when
the header is absent or non-numeric. -/
theorem content_length_attachment (env : Env) (st : XhrPluginState)
    (hid : Nat) (status : Nat) (statusText : String) (cl : Option String)
    (t : Nat) (d : XhrDetails) (tr : XRayTraceEvent) (sub : Subsegment)
    (rest : List Subsegment)
    (hd : mapGet st.xhrMap hid = some d) (htr : d.trace = some tr)
    (hsub : tr.subsegments = sub :: rest) :
    ∃ st', handleXhrLoadEvent env st hid status statusText cl t = some st'
      ∧ storedContentLength (some st') hid = some (getContentLength cl)
      ∧ getContentLength none = none
      ∧ getContentLength (some "page") = none := by
  unfold handleXhrLoadEvent
  simp only [hd, htr, hsub]
  refine ⟨_, rfl, ?_, rfl, by decide⟩
  simp [storedContentLength, recordHttpEventWithResponse_xhrMap,
    recordTraceEvent_xhrMap, mapGet_mapSet_self]

theorem content_length_attachment_witness :
    ∃ st', handleXhrLoadEvent env0 stSent 0 200 "OK" (some "42") 7 = some st'
      ∧ storedContentLength (some st') 0 = some (getContentLength (some "42"))
      ∧ getContentLength none = none
      ∧ getContentLength (some "page") = none :=
  content_length_attachment env0 stSent 0 200 "OK" (some "42") 7 d1 tr1 sub1 []
    (by decide) (by decide) (by decide)

/-- C6: for a tracked request, the timeout, abort and error callbacks each
emit exactly one HTTP summary event whatever the configuration and session
state (the environment is arbitrary): on timeout the event's error carries
the fixed category "XMLHttpRequest timeout" with no message and no response
block, and the trace cause holds only that category; on abort likewise with
"XMLHttpRequest abort"; on network error the status/status-text is folded
into the error message. -/
theorem error_paths_summary_unconditional (env : Env) (st : XhrPluginState)
    (hid : Nat) (status : Nat) (statusText : String) (t : Nat)
    (d : XhrDetails) (tr : XRayTraceEvent) (sub : Subsegment)
    (rest : List Subsegment)
    (hd : mapGet st.xhrMap hid = some d) (htr : d.trace = some tr)
    (hsub : tr.subsegments = sub :: rest) :
    (∃ st', handleXhrTimeoutEvent env st hid t = some st'
      ∧ httpEventsOf st'.recorded = httpEventsOf st.recorded ++
          [summaryWithError d.method
            { type := "XMLHttpRequest timeout", message := none }]
      ∧ storedCause (some st') hid = some (some { exceptions :=
          [{ type := "XMLHttpRequest timeout", message := none }] }))
    ∧ (∃ st', handleXhrAbortEvent env st hid t = some st'
      ∧ httpEventsOf st'.recorded = httpEventsOf st.recorded ++
          [summaryWithError d.method
            { type := "XMLHttpRequest abort", message := none }]
      ∧ storedCause (some st') hid = some (some { exceptions :=
          [{ type := "XMLHttpRequest abort", message := none }] }))
    ∧ (∃ st', handleXhrErrorEvent env st hid status statusText t = some st'
      ∧ httpEventsOf st'.recorded = httpEventsOf st.recorded ++
          [summaryWithError d.method { type := "XhrError", message := some (xhrErrorMessage status statusText) }]
      ∧ storedCause (some st') hid = some (some { exceptions :=
          [{ type := "XMLHttpRequest error", message := some (xhrErrorMessage status statusText) }] })) := by
  refine ⟨?_, ?_, ?_⟩
  · unfold handleXhrTimeoutEvent
    simp only [hd, htr, hsub]
    refine ⟨_, rfl, ?_, ?_⟩
    · unfold recordHttpEventWithError
      simp [httpEventsOf_append, httpEventsOf_httpSingleton,
        httpEventsOf_recordTraceEvent, errorEventToJsErrorEvent,
        summaryWithError]
    · simp [storedCause, recordHttpEventWithError_xhrMap,
        recordTraceEvent_xhrMap, mapGet_mapSet_self]
  · unfold handleXhrAbortEvent
    simp only [hd, htr, hsub]
    refine ⟨_, rfl, ?_, ?_⟩
    · unfold recordHttpEventWithError
      simp [httpEventsOf_append, httpEventsOf_httpSingleton,
        httpEventsOf_recordTraceEvent, errorEventToJsErrorEvent,
        summaryWithError]
    · simp [storedCause, recordHttpEventWithError_xhrMap,
        recordTraceEvent_xhrMap, mapGet_mapSet_self]
  · unfold handleXhrErrorEvent
    simp only [hd, htr, hsub]
    refine ⟨_, rfl, ?_, ?_⟩
    · unfold recordHttpEventWithError
      simp [httpEventsOf_append, httpEventsOf_httpSingleton,
        httpEventsOf_recordTraceEvent, errorEventToJsErrorEvent,
        summaryWithError, XhrError]
    · simp [storedCause, recordHttpEventWithError_xhrMap,
        recordTraceEvent_xhrMap, mapGet_mapSet_self]

theorem error_paths_summary_unconditional_witness :
    (∃ st', handleXhrTimeoutEvent env0 stSent 0 7 = some st'
      ∧ httpEventsOf st'.recorded = httpEventsOf stSent.recorded ++
          [summaryWithError d1.method
            { type := "XMLHttpRequest timeout", message := none }]
      ∧ storedCause (some st') 0 = some (some { exceptions :=
          [{ type := "XMLHttpRequest timeout", message := none }] }))
    ∧ (∃ st', handleXhrAbortEvent env0 stSent 0 7 = some st'
      ∧ httpEventsOf st'.recorded = httpEventsOf stSent.recorded ++
          [summaryWithError d1.method
            { type := "XMLHttpRequest abort", message := none }]
      ∧ storedCause (some st') 0 = some (some { exceptions :=
          [{ type := "XMLHttpRequest abort", message := none }] }))
    ∧ (∃ st', handleXhrErrorEvent env0 stSent 0 0 "" 7 = some st'
      ∧ httpEventsOf st'.recorded = httpEventsOf stSent.recorded ++
          [summaryWithError d1.method { type := "XhrError", message := some (xhrErrorMessage 0 "") }]
      ∧ storedCause (some st') 0 = some (some { exceptions :=
          [{ type := "XMLHttpRequest error", message := some (xhrErrorMessage 0 "") }] })) :=
  error_paths_summary_unconditional env0 stSent 0 0 "" 7 d1 tr1 sub1 []
    (by decide) (by decide) (by decide)

theorem handleXhrLoadEvent_finalizes (env : Env) (st : XhrPluginState)
    (hid : Nat) (status : Nat) (statusText : String) (cl : Option String)
    (t1 : Nat) (d : XhrDetails) (tr : XRayTraceEvent) (sub : Subsegment)
    (hd : mapGet st.xhrMap hid = some d) (htr : d.trace = some tr)
    (hsub : tr.subsegments = [sub]) (hr : tr.start_time ≤ t1)
    (hs : sub.start_time ≤ t1) :
    ∃ st', handleXhrLoadEvent env st hid status statusText cl t1 = some st'
      ∧ traceFinalized st' hid := by
  unfold handleXhrLoadEvent
  simp only [hd, htr, hsub]
  refine ⟨_, rfl, ?_⟩
  unfold traceFinalized
  simp [recordHttpEventWithResponse_xhrMap, recordTraceEvent_xhrMap,
    mapGet_mapSet_self]
  exact ⟨hr, hs⟩

theorem handleXhrErrorEvent_finalizes (env : Env) (st : XhrPluginState)
    (hid : Nat) (status : Nat) (statusText : String) (t1 : Nat)
    (d : XhrDetails) (tr : XRayTraceEvent) (sub : Subsegment)
    (hd : mapGet st.xhrMap hid = some d) (htr : d.trace = some tr)
    (hsub : tr.subsegments = [sub]) (hr : tr.start_time ≤ t1)
    (hs : sub.start_time ≤ t1) :
    ∃ st', handleXhrErrorEvent env st hid status statusText t1 = some st'
      ∧ traceFinalized st' hid := by
  unfold handleXhrErrorEvent
  simp only [hd, htr, hsub]
  refine ⟨_, rfl, ?_⟩
  unfold traceFinalized
  simp [recordHttpEventWithError_xhrMap, recordTraceEvent_xhrMap,
    mapGet_mapSet_self]
  exact ⟨hr, hs⟩

theorem handleXhrAbortEvent_finalizes (env : Env) (st : XhrPluginState)
    (hid : Nat) (t1 : Nat) (d : XhrDetails) (tr : XRayTraceEvent)
    (sub : Subsegment)
    (hd : mapGet st.xhrMap hid = some d) (htr : d.trace = some tr)
    (hsub : tr.subsegments = [sub]) (hr : tr.start_time ≤ t1)
    (hs : sub.start_time ≤ t1) :
    ∃ st', handleXhrAbortEvent env st hid t1 = some st'
      ∧ traceFinalized st' hid := by
  unfold handleXhrAbortEvent
  simp only [hd, htr, hsub]
  refine ⟨_, rfl, ?_⟩
  unfold traceFinalized
  simp [recordHttpEventWithError_xhrMap, recordTraceEvent_xhrMap,
    mapGet_mapSet_self]
  exact ⟨hr, hs⟩

theorem handleXhrTimeoutEvent_finalizes (env : Env) (st : XhrPluginState)
    (hid : Nat) (t1 : Nat) (d : XhrDetails) (tr : XRayTraceEvent)
    (sub : Subsegment)
    (hd : mapGet st.xhrMap hid = some d) (htr : d.trace = some tr)
    (hsub : tr.subsegments = [sub]) (hr : tr.start_time ≤ t1)
    (hs : sub.start_time ≤ t1) :
    ∃ st', handleXhrTimeoutEvent env st hid t1 = some st'
      ∧ traceFinalized st' hid := by
  unfold handleXhrTimeoutEvent
  simp only [hd, htr, hsub]
  refine ⟨_, rfl, ?_⟩
  unfold traceFinalized
  simp [recordHttpEventWithError_xhrMap, recordTraceEvent_xhrMap,
    mapGet_mapSet_self]
  exact ⟨hr, hs⟩

/-- C7: for a tracked request sent at time t0, whichever of the four terminal
callbacks fires at a later time t1 leaves a finalized trace: end_time is set
on the root segment and on the subsegment, each at or after the start time
captured at send. -/
theorem terminal_outcomes_finalize_trace (env : Env) (st : XhrPluginState)
    (xhr : XhrHandle) (t0 t1 : Nat) (d : XhrDetails) (status : Nat)
    (statusText : String) (cl : Option String)
    (hd : mapGet st.xhrMap xhr.hid = some d) (h01 : t0 ≤ t1) :
    (∃ st', handleXhrLoadEvent env (sendWrapper env st xhr t0).1 xhr.hid status
        statusText cl t1 = some st' ∧ traceFinalized st' xhr.hid)
    ∧ (∃ st', handleXhrErrorEvent env (sendWrapper env st xhr t0).1 xhr.hid
        status statusText t1 = some st' ∧ traceFinalized st' xhr.hid)
    ∧ (∃ st', handleXhrAbortEvent env (sendWrapper env st xhr t0).1 xhr.hid t1
        = some st' ∧ traceFinalized st' xhr.hid)
    ∧ (∃ st', handleXhrTimeoutEvent env (sendWrapper env st xhr t0).1 xhr.hid
        t1 = some st' ∧ traceFinalized st' xhr.hid) := by
  obtain ⟨h1, -⟩ := sendWrapper_tracked env st xhr t0 d hd
  have hget : mapGet (sendWrapper env st xhr t0).1.xhrMap xhr.hid
      = some (initializeTrace env d t0) := by
    rw [h1]
    exact mapGet_mapSet_self _ _ _
  have htr : (initializeTrace env d t0).trace = some (sentTrace env d t0) := by
    simp [initializeTrace, createXRayTraceEvent, createXRaySubsegment,
      sentTrace, sentSubsegment]
  have hsub : (sentTrace env d t0).subsegments = [sentSubsegment env d t0] := rfl
  have hr : (sentTrace env d t0).start_time ≤ t1 := h01
  have hs : (sentSubsegment env d t0).start_time ≤ t1 := h01
  exact ⟨handleXhrLoadEvent_finalizes _ _ _ _ _ _ _ _ _ _ hget htr hsub hr hs,
    handleXhrErrorEvent_finalizes _ _ _ _ _ _ _ _ _ hget htr hsub hr hs,
    handleXhrAbortEvent_finalizes _ _ _ _ _ _ _ hget htr hsub hr hs,
    handleXhrTimeoutEvent_finalizes _ _ _ _ _ _ _ hget htr hsub hr hs⟩

theorem terminal_outcomes_finalize_trace_witness :
    (∃ st', handleXhrLoadEvent env0 (sendWrapper env0 st0 xhr0 3).1 xhr0.hid
        200 "OK" none 7 = some st' ∧ traceFinalized st' xhr0.hid)
    ∧ (∃ st', handleXhrErrorEvent env0 (sendWrapper env0 st0 xhr0 3).1 xhr0.hid
        200 "OK" 7 = some st' ∧ traceFinalized st' xhr0.hid)
    ∧ (∃ st', handleXhrAbortEvent env0 (sendWrapper env0 st0 xhr0 3).1 xhr0.hid
        7 = some st' ∧ traceFinalized st' xhr0.hid)
    ∧ (∃ st', handleXhrTimeoutEvent env0 (sendWrapper env0 st0 xhr0 3).1
        xhr0.hid 7 = some st' ∧ traceFinalized st' xhr0.hid) :=
  terminal_outcomes_finalize_trace env0 st0 xhr0 3 7 d0 200 "OK" none
    (by decide) (by decide)

end AwsRumXhr
